import Mathlib

/-
Verification of src/opaf/fetch.py: a shallow embedding of the fetch module of
the opa-dependency-manager repository, followed by theorems about the claims
of its specification.

External effects are modelled explicitly:
  - the shell (subprocess.Popen running curl / tar / rm) is an environment
    function from the command string to the observable process outcome;
  - the YAML loader is an environment function from its argument to the
    parsed requirements document;
  - every embedded function returns, next to its value, the ordered trace of
    commands executed and log lines emitted.
Python dynamic typing matters here because the module passes its arguments
positionally in an order that differs from the callee signatures, so values
of different runtime types flow into the same parameters; the Py type mirrors
the runtime values that actually occur (strings, None, lists).
-/

namespace OpaFetch

/-- Shape of the stdout bytes captured from an executed command, as consumed
by check_if_resource_piped_to_path: either the bytes are not a JSON document
(json.loads raises), or a JSON document without an errors key (indexing
raises KeyError), or a JSON document whose errors key holds a list. -/
inductive CurlBody where
  | notJson
  | jsonNoErrorsKey
  | jsonErrors (errors : List String)
deriving DecidableEq

/-- Runtime Python values that flow through the repo / path parameters of the
module: strings, None, and lists. -/
inductive Py where
  | str (s : String)
  | pyNone
  | list (xs : List Py)

/-- Python len() on the values that reach it here. len of a string is its
character count, len of a list its length. (len(None) would raise a
TypeError; that value never reaches len in the module, the branch is a
total-function default.) -/
def pyLen : Py → Nat
  | Py.str s => s.length
  | Py.list xs => xs.length
  | Py.pyNone => 0

/-- Python indexing v[i]. Indexing a string yields a one-character string.
The defaults on out-of-range indices are never exercised: the module only
indexes within bounds established by the loop condition. -/
def pyIndex : Py → Nat → Py
  | Py.str s, i => Py.str (String.singleton (s.data.getD i (Char.ofNat 0)))
  | Py.list xs, i => xs.getD i Py.pyNone
  | Py.pyNone, _ => Py.pyNone

/-- Python repr quoting of a string element inside a list, using the ASCII
apostrophe character (code 39). -/
def pyQuote (s : String) : String :=
  String.singleton (Char.ofNat 39) ++ s ++ String.singleton (Char.ofNat 39)

/-- Element rendering inside Python str() of a list. Nested lists do not
occur in the module. -/
def pyFormatElem : Py → String
  | Py.str s => pyQuote s
  | Py.pyNone => "None"
  | Py.list _ => "[...]"

/-- Python %s formatting (str()) of a runtime value. -/
def pyFormat : Py → String
  | Py.str s => s
  | Py.pyNone => "None"
  | Py.list xs => "[" ++ String.intercalate ", " (xs.map pyFormatElem) ++ "]"

/-- Observable events of a run, in order: a shell command handed to
subprocess, a logger.error line, a logger.warning line. -/
inductive Event where
  | ranCommand (cmd : String)
  | logError (msg : String)
  | logWarning (msg : String)
deriving DecidableEq

/-- Outcome of one external process as the operating system reports it: the
shape of the bytes the process wrote to its stdout, the bytes it wrote to its
stderr stream, and its exit status. -/
structure ProcResult where
  stdoutBody : CurlBody
  stderrWritten : String
  returncode : Int
deriving DecidableEq

/-- The external world: what running a given shell command produces. -/
abbrev Env := String → ProcResult

def OPA_SITE_PACKAGES : String := "/usr/local/lib/opa/site-packages"

def DEFAULT_REPO : String := "generic-local"

/-- Python truthiness of an optional string (argparse attribute value):
None and the empty string are falsy. -/
def pyTruthyOptStr : Option String → Bool
  | Option.some s => s != ""
  | Option.none => false

structure Artifact where
  artifact_path : String
deriving DecidableEq

/-- Artifact.__init__: self.artifact_path =
"%s/%s/%s-%s.tar.gz" % (artifact_name, version, artifact_name, version). -/
def Artifact.init (artifact_name version : String) : Artifact :=
  { artifact_path :=
      artifact_name ++ "/" ++ version ++ "/" ++ artifact_name ++ "-" ++ version ++ ".tar.gz" }

/-- Artifact.with_repo: af_path = "artifactory/" + repo + "/" +
self.artifact_path; return "https://${ARTIFACTORY_HOST}/%s" % af_path.
String concatenation with + raises TypeError when repo is not a string. -/
def Artifact.with_repo (a : Artifact) (repo : Py) : Except String String :=
  match repo with
  | Py.str r =>
      Except.ok ("https://${ARTIFACTORY_HOST}/" ++ ("artifactory/" ++ r ++ "/" ++ a.artifact_path))
  | _ => Except.error "TypeError: can only concatenate str to str"

/-- raise_exception_if_process_exited_abnormally(err, process): if err is
truthy raise Exception(err); elif process.returncode != 0 raise
Exception("Error during curl request!"). -/
def raise_exception_if_process_exited_abnormally (err : Option String) (returncode : Int) :
    Except String Unit :=
  if pyTruthyOptStr err then Except.error (err.getD "")
  else if returncode != 0 then Except.error "Error during curl request!"
  else Except.ok ()

/-- execute_command(command): Popen(command, shell=True,
stdout=subprocess.PIPE); wait; data, err = communicate(). stderr is NOT piped
(only stdout is), so communicate() always returns None for err, whatever the
process wrote to its stderr stream. -/
def execute_command (env : Env) (command : String) : Except String CurlBody × List Event :=
  let process := env command
  let data := process.stdoutBody
  let err : Option String := Option.none
  match raise_exception_if_process_exited_abnormally err process.returncode with
  | Except.error e => (Except.error e, [Event.ranCommand command])
  | Except.ok _ => (Except.ok data, [Event.ranCommand command])

/-- check_if_resource_piped_to_path(curl_output): errors =
json.loads(curl_output.decode())["errors"]; return len(errors) == 0.
Undecodable output raises JSONDecodeError; a document without an errors key
raises KeyError. -/
def check_if_resource_piped_to_path (curl_output : CurlBody) : Except String Bool :=
  match curl_output with
  | CurlBody.notJson => Except.error "json.decoder.JSONDecodeError: Expecting value"
  | CurlBody.jsonNoErrorsKey => Except.error "KeyError: errors"
  | CurlBody.jsonErrors errors =>
      if errors.length > 0 then Except.ok false else Except.ok true

/-- download_to_path(resource_url, path): command =
"curl %s >> %s" % (resource_url, path); data = execute_command(command);
return check_if_resource_piped_to_path(data). -/
def download_to_path (env : Env) (resource_url : String) (path : Py) :
    Except String Bool × List Event :=
  let command := "curl " ++ resource_url ++ " >> " ++ pyFormat path
  match execute_command env command with
  | (Except.error e, tr) => (Except.error e, tr)
  | (Except.ok data, tr) => (check_if_resource_piped_to_path data, tr)

/-- try_downloading_from_this_repo(artifact, repo, site_package_tar_dump_path):
try: url = artifact.with_repo(repo); return download_to_path(url, dump);
except Exception as e: logger.error(e); return False. -/
def try_downloading_from_this_repo (env : Env) (artifact : Artifact) (repo : Py)
    (site_package_tar_dump_path : Py) : Bool × List Event :=
  match artifact.with_repo repo with
  | Except.error e => (false, [Event.logError e])
  | Except.ok artifactory_url =>
    match download_to_path env artifactory_url site_package_tar_dump_path with
    | (Except.error e, tr) => (false, tr ++ [Event.logError e])
    | (Except.ok b, tr) => (b, tr)

/-- While loop of try_downloading_from_all_repos, unrolled on the number of
remaining iterations. The body reads repo = repos[repo_index] and calls
try_downloading_from_this_repo(artifact, site_package_path, repo)
positionally, so site_package_path lands in the callee's repo parameter and
repo in its dump-path parameter, exactly as in the source. -/
def try_downloading_from_all_repos_go (env : Env) (artifact : Artifact) (repos : Py)
    (site_package_path : Py) (repo_index : Nat) : Nat → Bool × List Event
  | 0 => (false, [])
  | Nat.succ remaining =>
    let repo := pyIndex repos repo_index
    let attempt := try_downloading_from_this_repo env artifact site_package_path repo
    if attempt.1 then (true, attempt.2)
    else
      let next := try_downloading_from_all_repos_go env artifact repos site_package_path
        (repo_index + 1) remaining
      (next.1, attempt.2 ++ next.2)

/-- try_downloading_from_all_repos(artifact, repos, site_package_path):
piped = False; i = 0; while not piped and i < len(repos): piped =
try_downloading_from_this_repo(artifact, site_package_path, repos[i]); i += 1;
return piped. -/
def try_downloading_from_all_repos (env : Env) (artifact : Artifact) (repos : Py)
    (site_package_path : Py) : Bool × List Event :=
  try_downloading_from_all_repos_go env artifact repos site_package_path 0 (pyLen repos)

/-- download(artifact, repos, site_package_path): if repos is None, return
try_downloading_from_this_repo(artifact, site_package_path, DEFAULT_REPO);
else return try_downloading_from_all_repos(artifact, site_package_path,
repos). Both calls are positional; the callee signatures put repo before the
path, so the arguments arrive swapped. -/
def download (env : Env) (artifact : Artifact) (repos : Option (List Py))
    (site_package_path : String) : Bool × List Event :=
  match repos with
  | Option.none =>
      try_downloading_from_this_repo env artifact (Py.str site_package_path)
        (Py.str DEFAULT_REPO)
  | Option.some rs =>
      try_downloading_from_all_repos env artifact (Py.str site_package_path) (Py.list rs)

/-- extract_artifact(site_package_path): execute_command("tar xf %s
--strip-components=1" % site_package_path); execute_command("rm
site_package_path"). The second command is the literal string from the
source: the variable is inside the quotes, so the path is never
interpolated. -/
def extract_artifact (env : Env) (site_package_path : String) :
    Except String Unit × List Event :=
  match execute_command env ("tar xf " ++ site_package_path ++ " --strip-components=1") with
  | (Except.error e, tr) => (Except.error e, tr)
  | (Except.ok _, tr1) =>
    match execute_command env "rm site_package_path" with
    | (Except.error e, tr2) => (Except.error e, tr1 ++ tr2)
    | (Except.ok _, tr2) => (Except.ok (), tr1 ++ tr2)

/-- install_artifact(artifact, site_package_path, repos): downloaded =
download(artifact, repos, site_package_path); if downloaded:
extract_artifact(site_package_path) else logger.warning("Could not find
artifact with path %s in any of the given repositories" %
artifact.artifact_path). -/
def install_artifact (env : Env) (artifact : Artifact) (site_package_path : String)
    (repos : Option (List Py)) : Except String Unit × List Event :=
  let result := download env artifact repos site_package_path
  if result.1 then
    match extract_artifact env site_package_path with
    | (r, tr2) => (r, result.2 ++ tr2)
  else
    (Except.ok (), result.2 ++
      [Event.logWarning ("Could not find artifact with path " ++ artifact.artifact_path ++
        " in any of the given repositories")])

/-- get_opa_package_path(artifact_name, version): OPA_SITE_PACKAGES +
"/%s/%s" % (artifact_name, version). -/
def get_opa_package_path (artifact_name version : String) : String :=
  OPA_SITE_PACKAGES ++ "/" ++ artifact_name ++ "/" ++ version

/-- Parsed requirements document as the module reads it: .get("repositories")
yields None when absent, ["requirements"] raises KeyError when absent. -/
structure ReqFileMap where
  repositories : Option (List Py)
  requirements : Option (List (String × String))

/-- The external YAML loader: what yaml2Dict.load produces for the argument
the module hands it. -/
abbrev YamlEnv := String → ReqFileMap

/-- parse_requirements_file(path): m = yaml2Dict.load(path); repos =
m.get("repositories"); requirements = m["requirements"]; return repos,
requirements. -/
def parse_requirements_file (yamlEnv : YamlEnv) (path_to_dependencies : String) :
    Except String (Option (List Py) × List (String × String)) :=
  let requirements_file_map := yamlEnv path_to_dependencies
  match requirements_file_map.requirements with
  | Option.none => Except.error "KeyError: requirements"
  | Option.some requirements => Except.ok (requirements_file_map.repositories, requirements)

/-- For loop of install_artifacts_from_requirements_file: for name, version
in requirements: install_artifact(Artifact(name, version),
get_opa_package_path(name, version), repos). An exception from one
installation aborts the loop, as in Python. -/
def install_artifacts_loop (env : Env) (repos : Option (List Py)) :
    List (String × String) → Except String Unit × List Event
  | [] => (Except.ok (), [])
  | (name, version) :: rest =>
    let opa_package_path := get_opa_package_path name version
    let artifact := Artifact.init name version
    match install_artifact env artifact opa_package_path repos with
    | (Except.error e, tr) => (Except.error e, tr)
    | (Except.ok _, tr) =>
      let next := install_artifacts_loop env repos rest
      (next.1, tr ++ next.2)

/-- install_artifacts_from_requirements_file(path): repos, requirements =
parse_requirements_file(path); loop over requirements. -/
def install_artifacts_from_requirements_file (yamlEnv : YamlEnv) (env : Env)
    (path_to_dependencies : String) : Except String Unit × List Event :=
  match parse_requirements_file yamlEnv path_to_dependencies with
  | Except.error e => (Except.error e, [])
  | Except.ok (repos, requirements) => install_artifacts_loop env repos requirements

/-- uninstall_package(parsed_args): path = OPA_SITE_PACKAGES + "/" + id;
if parsed_args.version: path += "/" + version; execute_command("rm -rf " +
path). -/
def uninstall_package (env : Env) (id : String) (version : Option String) :
    Except String Unit × List Event :=
  let path := OPA_SITE_PACKAGES ++ "/" ++ id
  let path2 := if pyTruthyOptStr version then path ++ "/" ++ version.getD "" else path
  match execute_command env ("rm -rf " ++ path2) with
  | (Except.error e, tr) => (Except.error e, tr)
  | (Except.ok _, tr) => (Except.ok (), tr)

/-- argparse Namespace for the install command as build_arg_parser defines
it: an attribute is Option.none when the parser never added the
corresponding argument, so reading it raises AttributeError. The repo
attribute, when added, may itself hold None (required=False, default None). -/
structure PNamespace where
  read : Option String
  id : Option String
  version : Option String
  repo : Option (Option String)

/-- The two install-command input modes of the CLI. -/
inductive InstallCLI where
  | readMode (path : String)
  | idMode (name : String) (version : String) (repo : Option String)

/-- Namespace produced by build_arg_parser + parse_args for the install
command: in read mode only the read attribute exists; in id mode only id,
version and repo exist (repo defaults to None when not supplied). -/
def parse_install_args : InstallCLI → PNamespace
  | InstallCLI.readMode p =>
      { read := Option.some p, id := Option.none, version := Option.none, repo := Option.none }
  | InstallCLI.idMode n v r =>
      { read := Option.none, id := Option.some n, version := Option.some v,
        repo := Option.some r }

/-- Runtime value of the Python expression [repo]. -/
def pyOfOptStr : Option String → Py
  | Option.some s => Py.str s
  | Option.none => Py.pyNone

/-- install_package(parsed_args): if not parsed_args.read:
install_artifacts_from_requirements_file(parsed_args.read) else: name,
version, repo = parsed_args.id, parsed_args.version, parsed_args.repo;
install_artifact(Artifact(name, version), get_opa_package_path(name,
version), [repo]). Reading an attribute the parser never added raises
AttributeError; a present read attribute is falsy only when it is the empty
string. -/
def install_package (env : Env) (yamlEnv : YamlEnv) (parsed_args : PNamespace) :
    Except String Unit × List Event :=
  match parsed_args.read with
  | Option.none => (Except.error "AttributeError: read", [])
  | Option.some readVal =>
    if readVal == "" then
      install_artifacts_from_requirements_file yamlEnv env readVal
    else
      match parsed_args.id with
      | Option.none => (Except.error "AttributeError: id", [])
      | Option.some name =>
        match parsed_args.version with
        | Option.none => (Except.error "AttributeError: version", [])
        | Option.some version =>
          match parsed_args.repo with
          | Option.none => (Except.error "AttributeError: repo", [])
          | Option.some repo =>
            let opa_package_path := get_opa_package_path name version
            let artifact := Artifact.init name version
            install_artifact env artifact opa_package_path (Option.some [pyOfOptStr repo])

/-- Predicate on events: a logger.warning line. -/
def isWarningEvent : Event → Bool
  | Event.logWarning _ => true
  | _ => false

/-- Boolean check that the character list needle occurs at the head of the
haystack. -/
def charsLead : List Char → List Char → Bool
  | [], _ => true
  | _ :: _, [] => false
  | a :: as, b :: bs => a == b && charsLead as bs

/-- Boolean check that the character list needle occurs contiguously
somewhere in the haystack. -/
def charsContainRun (needle : List Char) : List Char → Bool
  | [] => needle.isEmpty
  | c :: rest => charsLead needle (c :: rest) || charsContainRun needle rest

/-- Boolean check that needle occurs as a contiguous substring of hay. -/
def stringMentions (hay needle : String) : Bool :=
  charsContainRun needle.data hay.data

/-- Environment in which every command succeeds: exit status 0, nothing on
stderr, and a well-formed JSON body with an empty errors list on stdout. -/
def envAllGood : Env :=
  fun _ => { stdoutBody := CurlBody.jsonErrors [], stderrWritten := "", returncode := 0 }

/-- Environment in which every command exits with status 0 but writes a
diagnostic to its stderr stream. -/
def envStderrOnly : Env :=
  fun _ => { stdoutBody := CurlBody.jsonErrors [],
             stderrWritten := "curl: (6) could not resolve host", returncode := 0 }

/-- Environment in which every command exits with status 1. -/
def envExitFail : Env :=
  fun _ => { stdoutBody := CurlBody.notJson, stderrWritten := "", returncode := 1 }

/-- Sample requirements document: no repositories key, one requirement. -/
def yamlEnvSample : YamlEnv :=
  fun _ => { repositories := Option.none,
             requirements := Option.some [("pkg", "1.0.0")] }

/-- Helper: execute_command always records exactly the one command it ran. -/
theorem execute_command_trace (env : Env) (c : String) :
    (execute_command env c).2 = [Event.ranCommand c] := by
  unfold execute_command
  cases h : raise_exception_if_process_exited_abnormally Option.none (env c).returncode <;>
    simp [h]

/-- Helper: download_to_path records exactly the curl command it assembled. -/
theorem download_to_path_trace (env : Env) (url : String) (p : Py) :
    (download_to_path env url p).2 =
      [Event.ranCommand ("curl " ++ url ++ " >> " ++ pyFormat p)] := by
  unfold download_to_path
  have h := execute_command_trace env ("curl " ++ url ++ " >> " ++ pyFormat p)
  rcases he : execute_command env ("curl " ++ url ++ " >> " ++ pyFormat p) with ⟨r, tr⟩
  rw [he] at h
  cases r <;> simp [he] <;> simpa using h

/-- Helper: a repository attempt whose repo argument is a string runs exactly
one curl command, whose URL embeds that string in the repository slot and
whose append target is the dump-path argument. -/
theorem this_repo_str_events (env : Env) (a : Artifact) (r : String) (dump : Py) :
    ∃ rest, (try_downloading_from_this_repo env a (Py.str r) dump).2 =
      Event.ranCommand ("curl " ++
        ("https://${ARTIFACTORY_HOST}/" ++ ("artifactory/" ++ r ++ "/" ++ a.artifact_path)) ++
        " >> " ++ pyFormat dump) :: rest := by
  simp only [try_downloading_from_this_repo, Artifact.with_repo]
  have h := download_to_path_trace env
    ("https://${ARTIFACTORY_HOST}/" ++ ("artifactory/" ++ r ++ "/" ++ a.artifact_path)) dump
  rcases hd : download_to_path env
      ("https://${ARTIFACTORY_HOST}/" ++ ("artifactory/" ++ r ++ "/" ++ a.artifact_path))
      dump with ⟨res, tr⟩
  rw [hd] at h
  simp only at h
  cases res with
  | error e => exact ⟨[Event.logError e], by simp [h]⟩
  | ok b => exact ⟨[], by simp [h]⟩

/-- Helper: a repository attempt whose repo argument is a Python list fails
at once with a TypeError from with_repo, which the except clause turns into a
logged error and a False result. -/
theorem this_repo_list_false (env : Env) (a : Artifact) (xs : List Py) (dump : Py) :
    try_downloading_from_this_repo env a (Py.list xs) dump =
      (false, [Event.logError "TypeError: can only concatenate str to str"]) := rfl

/-- Helper: when the while loop of try_downloading_from_all_repos runs with a
Python list in its site_package_path slot, every iteration hands that list to
with_repo, raises TypeError, and yields False. -/
theorem all_repos_go_list_false (env : Env) (a : Artifact) (repos : Py) (xs : List Py) :
    ∀ (remaining repo_index : Nat),
      (try_downloading_from_all_repos_go env a repos (Py.list xs) repo_index remaining).1 =
        false := by
  intro remaining
  induction remaining with
  | zero => intro i; rfl
  | succ r ih =>
    intro i
    simp only [try_downloading_from_all_repos_go, this_repo_list_false]
    exact ih (i + 1)

/-- Claim C1: the specification says download via try_downloading_from_all_repos
attempts the declared repositories in order, returns true at the first
Obtained outcome and false only when the list is exhausted. The code cannot:
download passes its arguments as (artifact, site_package_path, repos) into a
callee whose signature is (artifact, repos, site_package_path), so the loop
iterates over the characters of the destination path and every attempt hands
the repository list itself to with_repo, raising TypeError. Whatever the
environment answers and whatever repositories are declared, download with a
repository list returns false. -/
theorem download_with_repo_list_never_succeeds (env : Env) (a : Artifact) (rs : List Py)
    (p : String) : (download env a (Option.some rs) p).1 = false := by
  simp only [download, try_downloading_from_all_repos]
  exact all_repos_go_list_false env a (Py.str p) rs (pyLen (Py.str p)) 0

/-- Claim C2: the specification says that with repositories absent the single
fetch attempt qualifies the URL with DEFAULT_REPO and transfers to the given
destination. The code swaps the two: the one curl command it runs embeds the
destination path in the repository slot of the URL and appends to the file
named generic-local. -/
theorem download_default_repo_swapped (env : Env) (a : Artifact) (p : String) :
    ∃ rest, (download env a Option.none p).2 =
      Event.ranCommand ("curl " ++
        ("https://${ARTIFACTORY_HOST}/" ++ ("artifactory/" ++ p ++ "/" ++ a.artifact_path)) ++
        " >> " ++ DEFAULT_REPO) :: rest := by
  have h := this_repo_str_events env a p (Py.str DEFAULT_REPO)
  simpa [download, pyFormat] using h

/-- Helper: a single repository attempt never emits a logger.warning line;
its trace holds only the curl command and possibly a logger.error line. -/
theorem this_repo_no_warning (env : Env) (a : Artifact) (repo dump : Py) :
    ((try_downloading_from_this_repo env a repo dump).2).filter isWarningEvent = [] := by
  unfold try_downloading_from_this_repo
  cases hw : a.with_repo repo with
  | error e => simp [isWarningEvent]
  | ok url =>
    have h := download_to_path_trace env url dump
    rcases hd : download_to_path env url dump with ⟨r, tr⟩
    rw [hd] at h
    simp only at h
    cases r <;> simp [hd, h, isWarningEvent]

/-- Helper: the fallback loop never emits a logger.warning line. -/
theorem all_repos_go_no_warning (env : Env) (a : Artifact) (repos site : Py) :
    ∀ (remaining repo_index : Nat),
      ((try_downloading_from_all_repos_go env a repos site repo_index remaining).2).filter
        isWarningEvent = [] := by
  intro remaining
  induction remaining with
  | zero => intro i; rfl
  | succ r ih =>
    intro i
    simp only [try_downloading_from_all_repos_go]
    by_cases hb : (try_downloading_from_this_repo env a site (pyIndex repos i)).1 = true
    · simp [hb, this_repo_no_warning]
    · simp only [Bool.not_eq_true] at hb
      simp [hb, List.filter_append, this_repo_no_warning, ih]

/-- Helper: download never emits a logger.warning line. -/
theorem download_no_warning (env : Env) (a : Artifact) (repos : Option (List Py))
    (p : String) : ((download env a repos p).2).filter isWarningEvent = [] := by
  cases repos with
  | none => exact this_repo_no_warning env a (Py.str p) (Py.str DEFAULT_REPO)
  | some rs =>
    simp only [download, try_downloading_from_all_repos]
    exact all_repos_go_no_warning env a (Py.str p) (Py.list rs) (pyLen (Py.str p)) 0

/-- Claim C5 (amended): extraction is triggered if and only if download
returned true. When download returns false, install_artifact returns without
raising, appends exactly one logger.warning naming the artifact's relative
path (the message refers to the given repositories only generically) and runs
no further command; when download returns true, the trace continues with the
events of extract_artifact, whose first command is the tar extraction. -/
theorem install_artifact_extraction_iff (env : Env) (a : Artifact) (p : String)
    (repos : Option (List Py)) :
    ((download env a repos p).1 = false →
      install_artifact env a p repos =
        (Except.ok (), (download env a repos p).2 ++
          [Event.logWarning ("Could not find artifact with path " ++ a.artifact_path ++
            " in any of the given repositories")]) ∧
      ((install_artifact env a p repos).2).filter isWarningEvent =
        [Event.logWarning ("Could not find artifact with path " ++ a.artifact_path ++
          " in any of the given repositories")]) ∧
    ((download env a repos p).1 = true →
      install_artifact env a p repos =
        ((extract_artifact env p).1, (download env a repos p).2 ++ (extract_artifact env p).2) ∧
      ∃ rest, (extract_artifact env p).2 =
        Event.ranCommand ("tar xf " ++ p ++ " --strip-components=1") :: rest) := by
  constructor
  · intro hfalse
    have hinst : install_artifact env a p repos =
        (Except.ok (), (download env a repos p).2 ++
          [Event.logWarning ("Could not find artifact with path " ++ a.artifact_path ++
            " in any of the given repositories")]) := by
      unfold install_artifact
      simp [hfalse]
    refine ⟨hinst, ?_⟩
    rw [hinst]
    simp [List.filter_append, download_no_warning, isWarningEvent]
  · intro htrue
    constructor
    · unfold install_artifact
      rcases hx : extract_artifact env p with ⟨r2, tr2⟩
      simp [htrue, hx]
    · unfold extract_artifact
      have h := execute_command_trace env ("tar xf " ++ p ++ " --strip-components=1")
      rcases he : execute_command env ("tar xf " ++ p ++ " --strip-components=1") with ⟨r, tr⟩
      rw [he] at h
      simp only at h
      cases r with
      | error e => exact ⟨[], by simp [h]⟩
      | ok b =>
        rcases he2 : execute_command env "rm site_package_path" with ⟨r2, tr2⟩
        cases r2 <;> exact ⟨tr2, by simp [h]⟩

/-- Witness for install_artifact_extraction_iff: with every command
succeeding, artifact pkg 1.0.0, destination /dest and repository list
[repoA], download still returns false (the fallback bug) and install
appends exactly the single fixed warning. -/
theorem install_artifact_extraction_iff_witness :
    (download envAllGood (Artifact.init "pkg" "1.0.0")
      (Option.some [Py.str "repoA"]) "/dest").1 = false ∧
    install_artifact envAllGood (Artifact.init "pkg" "1.0.0") "/dest"
      (Option.some [Py.str "repoA"]) =
      (Except.ok (), (download envAllGood (Artifact.init "pkg" "1.0.0")
        (Option.some [Py.str "repoA"]) "/dest").2 ++
        [Event.logWarning ("Could not find artifact with path " ++
          (Artifact.init "pkg" "1.0.0").artifact_path ++
          " in any of the given repositories")]) :=
  ⟨by decide,
   ((install_artifact_extraction_iff envAllGood (Artifact.init "pkg" "1.0.0") "/dest"
      (Option.some [Py.str "repoA"])).1 (by decide)).1⟩

/-- Counterexample for claim C5 as stated: with repository list [repoA] the
single warning emitted by install_artifact does not name the repository
attempted; the concrete message nowhere mentions repoA. -/
theorem install_artifact_warning_omits_repos :
    ((install_artifact envAllGood (Artifact.init "pkg" "1.0.0") "/dest"
        (Option.some [Py.str "repoA"])).2).filter isWarningEvent =
      [Event.logWarning
        "Could not find artifact with path pkg/1.0.0/pkg-1.0.0.tar.gz in any of the given repositories"] ∧
    stringMentions
      "Could not find artifact with path pkg/1.0.0/pkg-1.0.0.tar.gz in any of the given repositories"
      "repoA" = false := by
  constructor
  · decide
  · decide

/-- Counterexample for claim C3 as stated: a response body whose errors list
is absent does not yield Obtained; check_if_resource_piped_to_path raises a
KeyError instead of returning true. -/
theorem check_absent_errors_not_obtained :
    check_if_resource_piped_to_path CurlBody.jsonNoErrorsKey ≠ Except.ok true := by
  intro h
  exact Except.noConfusion h

/-- Claim C3 (amended): when the curl process exits with status 0, the fetch
attempt classifies its captured output by the errors list of the parsed JSON
body: a non-empty errors list yields NotFound (download_to_path returns
false), an empty errors list yields Obtained (true), and a body without an
errors key raises a KeyError (which the surrounding repository attempt later
catches and treats as a failed attempt). -/
theorem download_to_path_classification (env : Env) (url path : String)
    (es : List String) :
    (env ("curl " ++ url ++ " >> " ++ path)).returncode = 0 →
      ((env ("curl " ++ url ++ " >> " ++ path)).stdoutBody = CurlBody.jsonErrors es →
        (download_to_path env url (Py.str path)).1 = Except.ok es.isEmpty) ∧
      ((env ("curl " ++ url ++ " >> " ++ path)).stdoutBody = CurlBody.jsonNoErrorsKey →
        (download_to_path env url (Py.str path)).1 = Except.error "KeyError: errors") := by
  intro hrc
  have hexec : execute_command env ("curl " ++ url ++ " >> " ++ path) =
      (Except.ok (env ("curl " ++ url ++ " >> " ++ path)).stdoutBody,
       [Event.ranCommand ("curl " ++ url ++ " >> " ++ path)]) := by
    unfold execute_command raise_exception_if_process_exited_abnormally
    simp [pyTruthyOptStr, hrc]
  constructor
  · intro hbody
    unfold download_to_path
    simp only [pyFormat]
    rw [hexec, hbody]
    cases es with
    | nil => simp [check_if_resource_piped_to_path]
    | cons e es => simp [check_if_resource_piped_to_path]
  · intro hbody
    unfold download_to_path
    simp only [pyFormat]
    rw [hexec, hbody]
    simp [check_if_resource_piped_to_path]

/-- Witness for download_to_path_classification: under the environment in
which every command exits 0 with an empty errors document, a fetch attempt
returns Obtained. -/
theorem download_to_path_classification_witness :
    (envAllGood "curl https://u >> p").returncode = 0 ∧
    (download_to_path envAllGood "https://u" (Py.str "p")).1 = Except.ok true :=
  ⟨rfl,
   (download_to_path_classification envAllGood "https://u" "p" [] rfl).1 rfl⟩

/-- Claim C4: the specification says both a nonzero exit status and the
presence of stderr output with a zero exit status raise a transport error.
Only the former is true of the code: Popen pipes stdout only, so
communicate() always returns None for stderr and the err check in
raise_exception_if_process_exited_abnormally can never fire. A command that
exits 0 while writing a diagnostic to stderr is returned as ordinary data; a
command that exits 1 does raise. -/
theorem execute_command_stderr_not_raised :
    (execute_command envStderrOnly "curl https://u >> p").1 =
      Except.ok (CurlBody.jsonErrors []) ∧
    (execute_command envExitFail "curl https://u >> p").1 =
      Except.error "Error during curl request!" := by
  constructor
  · rfl
  · rfl

/-- Claim C9: the specification says the cleanup after a successful
extraction removes the downloaded archive at the actual destination path.
The code instead runs the literal command rm site_package_path: the variable
name sits inside the string, so for the concrete destination below (and any
other) the removed name never depends on the destination. -/
theorem extract_artifact_cleanup_literal :
    extract_artifact envAllGood "/usr/local/lib/opa/site-packages/pkg/0.0.1" =
      (Except.ok (),
       [Event.ranCommand "tar xf /usr/local/lib/opa/site-packages/pkg/0.0.1 --strip-components=1",
        Event.ranCommand "rm site_package_path"]) := by
  rfl

/-- Helper: when the process exits with status 0, execute_command returns its
captured stdout (stderr is not piped, so it can never raise for stderr). -/
theorem execute_command_ok_of_rc_zero (env : Env) (c : String)
    (h : (env c).returncode = 0) :
    execute_command env c = (Except.ok (env c).stdoutBody, [Event.ranCommand c]) := by
  unfold execute_command raise_exception_if_process_exited_abnormally
  simp [pyTruthyOptStr, h]

/-- Helper: when every installation in the list returns without raising, the
for loop of the batch driver visits the pairs in order and its trace is the
concatenation of the per-pair installation traces, each invoked with the same
repositories value. -/
theorem install_artifacts_loop_trace (env : Env) (repos : Option (List Py)) :
    ∀ reqs : List (String × String),
      (∀ nv ∈ reqs, (install_artifact env (Artifact.init nv.1 nv.2)
        (get_opa_package_path nv.1 nv.2) repos).1 = Except.ok ()) →
      install_artifacts_loop env repos reqs =
        (Except.ok (), (reqs.map (fun nv => (install_artifact env (Artifact.init nv.1 nv.2)
          (get_opa_package_path nv.1 nv.2) repos).2)).flatten) := by
  intro reqs
  induction reqs with
  | nil => intro _; rfl
  | cons nv rest ih =>
    intro hall
    obtain ⟨n, v⟩ := nv
    have hh := hall (n, v) (by simp)
    rcases hi : install_artifact env (Artifact.init n v) (get_opa_package_path n v) repos
      with ⟨r, tr⟩
    rw [hi] at hh
    simp only at hh
    subst hh
    have ht := ih (fun x hx => hall x (by simp [hx]))
    simp [install_artifacts_loop, hi, ht]

/-- Claim C6: batch installation raises a KeyError when the requirements key
is absent from the loaded document; otherwise it passes the repositories
value through unchanged (absent included) and, provided no installation
raises, invokes the installer exactly once per (name, version) pair in file
order, each time with the same shared repositories value. -/
theorem install_artifacts_requirements_contract (yamlEnv : YamlEnv) (env : Env)
    (path : String) :
    ((yamlEnv path).requirements = Option.none →
      (install_artifacts_from_requirements_file yamlEnv env path).1 =
        Except.error "KeyError: requirements") ∧
    (∀ reqs, (yamlEnv path).requirements = Option.some reqs →
      (∀ nv ∈ reqs, (install_artifact env (Artifact.init nv.1 nv.2)
        (get_opa_package_path nv.1 nv.2) (yamlEnv path).repositories).1 = Except.ok ()) →
      install_artifacts_from_requirements_file yamlEnv env path =
        (Except.ok (), (reqs.map (fun nv => (install_artifact env (Artifact.init nv.1 nv.2)
          (get_opa_package_path nv.1 nv.2) (yamlEnv path).repositories).2)).flatten)) := by
  constructor
  · intro h
    simp [install_artifacts_from_requirements_file, parse_requirements_file, h]
  · intro reqs h hall
    have ht := install_artifacts_loop_trace env (yamlEnv path).repositories reqs hall
    simp [install_artifacts_from_requirements_file, parse_requirements_file, h, ht]

/-- Witness for install_artifacts_requirements_contract: the sample document
with one requirement and no repositories key installs it once; with every
command succeeding, that single installation returns without raising. -/
theorem install_artifacts_requirements_contract_witness :
    (yamlEnvSample "reqs.yaml").requirements = Option.some [("pkg", "1.0.0")] ∧
    install_artifacts_from_requirements_file yamlEnvSample envAllGood "reqs.yaml" =
      (Except.ok (), ([(("pkg" : String), ("1.0.0" : String))].map (fun nv =>
        (install_artifact envAllGood (Artifact.init nv.1 nv.2)
          (get_opa_package_path nv.1 nv.2) (yamlEnvSample "reqs.yaml").repositories).2)).flatten) :=
  ⟨rfl, (install_artifacts_requirements_contract yamlEnvSample envAllGood "reqs.yaml").2
    [("pkg", "1.0.0")] rfl
    (by intro nv hnv; rw [List.mem_singleton] at hnv; subst hnv; rfl)⟩

/-- Claim C7: uninstall computes the fixed site-packages root joined with the
name, narrowed to name/version when a version is given, and runs a single
recursive rm -rf of that path. Because rm -rf reports exit status 0 even for
a nonexistent path (and stderr is never captured), the removal completes
without raising whenever the process exits 0, which makes removal of a
nonexistent path idempotent. -/
theorem uninstall_package_contract (env : Env) (id v : String) :
    (v ≠ "" →
      (uninstall_package env id (Option.some v)).2 =
        [Event.ranCommand ("rm -rf " ++ (OPA_SITE_PACKAGES ++ "/" ++ id ++ "/" ++ v))]) ∧
    ((uninstall_package env id Option.none).2 =
      [Event.ranCommand ("rm -rf " ++ (OPA_SITE_PACKAGES ++ "/" ++ id))]) ∧
    (v ≠ "" →
      (env ("rm -rf " ++ (OPA_SITE_PACKAGES ++ "/" ++ id ++ "/" ++ v))).returncode = 0 →
      (uninstall_package env id (Option.some v)).1 = Except.ok ()) ∧
    ((env ("rm -rf " ++ (OPA_SITE_PACKAGES ++ "/" ++ id))).returncode = 0 →
      (uninstall_package env id Option.none).1 = Except.ok ()) := by
  refine ⟨?_, ?_, ?_, ?_⟩
  · intro h
    have ht := execute_command_trace env
      ("rm -rf " ++ (OPA_SITE_PACKAGES ++ "/" ++ id ++ "/" ++ v))
    rcases he : execute_command env
        ("rm -rf " ++ (OPA_SITE_PACKAGES ++ "/" ++ id ++ "/" ++ v)) with ⟨r, tr⟩
    rw [he] at ht
    simp only at ht
    cases r <;> simp [uninstall_package, pyTruthyOptStr, bne_iff_ne, h, he, ht]
  · have ht := execute_command_trace env ("rm -rf " ++ (OPA_SITE_PACKAGES ++ "/" ++ id))
    rcases he : execute_command env ("rm -rf " ++ (OPA_SITE_PACKAGES ++ "/" ++ id))
      with ⟨r, tr⟩
    rw [he] at ht
    simp only at ht
    cases r <;> simp [uninstall_package, pyTruthyOptStr, he, ht]
  · intro h hrc
    have hok := execute_command_ok_of_rc_zero env
      ("rm -rf " ++ (OPA_SITE_PACKAGES ++ "/" ++ id ++ "/" ++ v)) hrc
    simp [uninstall_package, pyTruthyOptStr, bne_iff_ne, h, hok]
  · intro hrc
    have hok := execute_command_ok_of_rc_zero env
      ("rm -rf " ++ (OPA_SITE_PACKAGES ++ "/" ++ id)) hrc
    simp [uninstall_package, pyTruthyOptStr, hok]

/-- Witness for uninstall_package_contract: with every command exiting 0,
uninstalling pkg 1.0.0 runs exactly the rm -rf of the versioned install path
and returns without raising. -/
theorem uninstall_package_contract_witness :
    ("1.0.0" : String) ≠ "" ∧
    (uninstall_package envAllGood "pkg" (Option.some "1.0.0")).2 =
      [Event.ranCommand
        ("rm -rf " ++ (OPA_SITE_PACKAGES ++ "/" ++ "pkg" ++ "/" ++ "1.0.0"))] ∧
    (uninstall_package envAllGood "pkg" (Option.some "1.0.0")).1 = Except.ok () :=
  ⟨by decide,
   (uninstall_package_contract envAllGood "pkg" "1.0.0").1 (by decide),
   (uninstall_package_contract envAllGood "pkg" "1.0.0").2.2.1 (by decide) rfl⟩

/-- Claim C8: the artifact relative-path construction is deterministic (equal
inputs give the equal path) and yields name/version/name-version.tar.gz with
name and version embedded verbatim, no normalization. -/
theorem artifact_relative_path_format (name version : String) :
    (Artifact.init name version).artifact_path =
      name ++ "/" ++ version ++ "/" ++ name ++ "-" ++ version ++ ".tar.gz" ∧
    (∀ n2 v2, name = n2 → version = v2 →
      (Artifact.init name version).artifact_path = (Artifact.init n2 v2).artifact_path) := by
  refine ⟨rfl, ?_⟩
  intro n2 v2 h1 h2
  rw [h1, h2]

/-- Witness for artifact_relative_path_format at pkg 1.0.0. -/
theorem artifact_relative_path_format_witness :
    (Artifact.init "pkg" "1.0.0").artifact_path = "pkg/1.0.0/pkg-1.0.0.tar.gz" ∧
    (Artifact.init "pkg" "1.0.0").artifact_path = (Artifact.init "pkg" "1.0.0").artifact_path :=
  ⟨by rw [(artifact_relative_path_format "pkg" "1.0.0").1]; decide,
   (artifact_relative_path_format "pkg" "1.0.0").2 "pkg" "1.0.0" rfl rfl⟩

/-- Claim C10: the specification says each caller-selected install mode
dispatches without error for well-formed inputs. The code inverts the
dispatch condition (if not parsed_args.read) and each branch then reads
attributes only the other mode defines: in id mode the test of
parsed_args.read itself raises AttributeError, and in read mode the truthy
path string sends control to the single-artifact branch, whose read of
parsed_args.id raises AttributeError. Both well-formed modes therefore
fail. -/
theorem install_package_both_modes_attribute_error :
    (install_package envAllGood yamlEnvSample
      (parse_install_args (InstallCLI.idMode "pkg" "1.0.0" Option.none))).1 =
      Except.error "AttributeError: read" ∧
    (install_package envAllGood yamlEnvSample
      (parse_install_args (InstallCLI.readMode "reqs.yaml"))).1 =
      Except.error "AttributeError: id" := by
  constructor
  · rfl
  · rfl

end OpaFetch
